import Mathlib

/-!
Verification development for the kite peer node (src/kite/main.go): the peer
registry, round-robin balancer, call router (CallSync, Call, getRemoteKite,
roundRobin, RemoteKites), the dial handshake (dialClient), and the
coordination state machine (handle, Pong, InitializeKite, RegisterToKontrol,
AddKite, RemoveKite).

The peers, balancer and protocol packages are imported by main.go but their
sources are not part of this repository snapshot; their small contracts are
modelled from the specification and marked as such below.  Machine integers
of the source are modelled as Nat: every reachable balancer index is the
result of a modulo by a list length, hence small, so the float64 math.Mod of
the source agrees exactly with Nat modulo on all reachable values.
-/

namespace Kite

/-- One remote peer record (models.Kite in the source): identity fields from
the coordinator broadcast plus the lazily established connection handle
(client).  The rpc client is abstracted to a numeric handle. -/
structure RemoteKite where
  username : String
  kitename : String
  version : String
  uuid : String
  hostname : String
  addr : String
  token : String
  client : Option Nat
deriving Repr, DecidableEq

/-- A failure of a call-path operation: either a Go runtime panic or an
ordinary error value returned to the caller. -/
inductive Failure where
  | crash (msg : String)
  | err (msg : String)
deriving Repr, DecidableEq

/-- Modelled from the spec: the peers package (koding/newkite/peers) is not
under src/.  The peer registry is a concurrent store of remote peers keyed
by network address. -/
abbrev Registry := List RemoteKite

/-- Modelled from the spec: Add(peer) inserts or replaces the entry for the
peer's address. -/
def Registry.add (reg : Registry) (p : RemoteKite) : Registry :=
  if reg.any (fun q => q.addr == p.addr) then
    reg.map (fun q => if q.addr == p.addr then p else q)
  else
    reg ++ [p]

/-- Modelled from the spec: Remove deletes the peer with the given unique
id. -/
def Registry.remove (reg : Registry) (uuid : String) : Registry :=
  reg.filter (fun q => q.uuid != uuid)

/-- Modelled from the spec: List returns a snapshot of all current peers. -/
def Registry.list (reg : Registry) : List RemoteKite := reg

/-- Modelled from the spec: the balancer package (koding/newkite/balancer)
is not under src/.  The balancer maps a logical kite-group name to the
last-used round-robin index; GetIndex defaults to 0 for an unseen group and
AddOrUpdateIndex stores a new index for the group. -/
abbrev Balancer := List (String × Nat)

/-- Modelled from the spec: GetIndex returns the last-used index for a
group, 0 if the group was never seen. -/
def Balancer.getIndex (bal : Balancer) (kite : String) : Nat :=
  match bal.find? (fun p => p.1 == kite) with
  | some p => p.2
  | none => 0

/-- Modelled from the spec: AddOrUpdateIndex stores a new index for the
group (an association list where the newest binding shadows older ones). -/
def Balancer.addOrUpdateIndex (bal : Balancer) (kite : String) (n : Nat) : Balancer :=
  (kite, n) :: bal

/-- RemoteKites (main.go): filters the registry snapshot down to the peers
whose logical kite-name equals the requested one.  The source allocates the
result with make([]*models.Kite, 0, len(l)-1); when the registry snapshot is
empty the capacity argument is -1 and Go raises a runtime panic
(makeslice: cap out of range), embedded here as the crash outcome. -/
def RemoteKites (reg : Registry) (kite : String) : Except Failure (List RemoteKite) :=
  let l := Registry.list reg
  if l.length = 0 then
    .error (.crash "makeslice: cap out of range")
  else
    .ok (l.filter (fun r => r.kitename == kite))

/-- The list of registry entries whose kitename equals the requested group:
exactly the list RemoteKites builds when the registry is non-empty. -/
def matching (reg : Registry) (kite : String) : List RemoteKite :=
  (Registry.list reg).filter (fun r => r.kitename == kite)

/-- roundRobin (main.go): pick the next peer of the group.  With no
candidates it returns the error naming the group; otherwise it selects
index (lastIndex + 1) mod n, stores it back into the balancer and returns
the candidate at that index. -/
def roundRobin (reg : Registry) (bal : Balancer) (kite : String) :
    Except Failure (RemoteKite × Balancer) :=
  match RemoteKites reg kite with
  | .error f => .error f
  | .ok remoteKites =>
    if h : remoteKites.length = 0 then
      .error (.err ("kite " ++ kite ++ " does not exist"))
    else
      let index := Balancer.getIndex bal kite
      let n := (index + 1) % remoteKites.length
      .ok (remoteKites.get ⟨n, Nat.mod_lt _ (Nat.pos_of_ne_zero h)⟩,
           Balancer.addOrUpdateIndex bal kite n)

/-- getRemoteKite (main.go): resolve one peer via roundRobin; when the
candidate has no cached connection, dial it (the network is abstracted as a
dial oracle returning a connection handle or an error) and on success
re-insert the refreshed record into the registry.  Returns the resolution
outcome together with the resulting registry and balancer. -/
def getRemoteKite (reg : Registry) (bal : Balancer) (kite : String)
    (dial : RemoteKite → Except String Nat) :
    Except Failure RemoteKite × Registry × Balancer :=
  match roundRobin reg bal kite with
  | .error f => (.error f, reg, bal)
  | .ok (r, bal') =>
    match r.client with
    | some _ => (.ok r, reg, bal')
    | none =>
      match dial r with
      | .error e => (.error (.err e), reg, bal')
      | .ok c =>
        (.ok { r with client := some c },
         Registry.add reg { r with client := some c }, bal')

/-- CallSync (main.go): resolve a peer and issue a blocking call (the remote
call is abstracted as an oracle); a remote error is wrapped with the target
kite name. -/
def CallSync (reg : Registry) (bal : Balancer) (kite method : String)
    (dial : RemoteKite → Except String Nat)
    (call : RemoteKite → String → Except String Unit) :
    Except Failure Unit × Registry × Balancer :=
  match getRemoteKite reg bal kite dial with
  | (.error f, reg', bal') => (.error f, reg', bal')
  | (.ok r, reg', bal') =>
    match call r (kite ++ "." ++ method) with
    | .error e => (.error (.err ("[" ++ kite ++ "] call error: " ++ e)), reg', bal')
    | .ok _ => (.ok (), reg', bal')

/-- The sequence of balancer indices selected by k consecutive roundRobin
resolutions against a fixed registry (no concurrent contention): each step
reads the index that roundRobin just stored. -/
def rrIndices (reg : Registry) (kite : String) : Nat → Balancer → List Nat
  | 0, _ => []
  | k+1, bal =>
    match roundRobin reg bal kite with
    | .error _ => []
    | .ok (_, bal') => Balancer.getIndex bal' kite :: rrIndices reg kite k bal'

/-! ## Dial handshake (dialClient) -/

/-- The decoded HTTP response to the CONNECT request, reduced to the status
line, the only field dialClient inspects. -/
structure HTTPResponse where
  status : String
deriving Repr, DecidableEq

/-- The expected status line (main.go: var connected). -/
def connected : String := "200 Connected to Go RPC"

/-- The outcome of one dialClient invocation: the codec-wrapped rpc client
on success, the returned error, whether a TCP connection was opened, and
whether dialClient itself closed it. -/
structure DialResult where
  client : Option Nat
  errMsg : Option String
  connOpened : Bool
  connClosed : Bool
deriving Repr, DecidableEq

/-- dialClient (main.go): the network is abstracted as the outcome of
net.Dial (a connection handle or an error) and http.ReadResponse (a decoded
response or an error).  A TCP failure returns the raw error; after a
successful connect, anything other than a decoded response whose status is
exactly the connected string closes the connection and returns an
OpError-wrapped error; only the exact status yields a codec-wrapped client. -/
def dialClient (tcp : Except String Nat) (readResp : Except String HTTPResponse) :
    DialResult :=
  match tcp with
  | .error e =>
    { client := none, errMsg := some e, connOpened := false, connClosed := false }
  | .ok conn =>
    match readResp with
    | .ok resp =>
      if resp.status = connected then
        { client := some conn, errMsg := none, connOpened := true, connClosed := false }
      else
        { client := none
          errMsg := some ("dial-http tcp: unexpected HTTP response: " ++ resp.status)
          connOpened := true, connClosed := true }
    | .error e =>
      { client := none, errMsg := some ("dial-http tcp: " ++ e)
        connOpened := true, connClosed := true }

/-! ## The select race inside Call -/

/-- The completed rpc.Call as seen on the Done channel: the error and the
result string written by the remote call. -/
structure CallResponse where
  respErr : Option String
  result : String
deriving Repr, DecidableEq

/-- The select statement at the end of Call (main.go lines 592-597), racing
the Done channel against the 10-second tick.  The input is some response if
the remote response arrives before the tick, none otherwise.  The output is
the list of callback invocations performed, each carrying the error and
result values passed to fn: the Done branch passes the completed call's
error and result; the tick branch passes the rpc.Call's error field, which
is still nil, and the still-unwritten zero-value result. -/
def callSelect (resp : Option CallResponse) : List (Option String × String) :=
  match resp with
  | some r => [(r.respErr, r.result)]
  | none => [(none, "")]

/-! ## Coordination state machine -/

/-- Modelled from the spec: the protocol package constants are not under
src/; the recognized broadcast action values are addKite, removeKite,
updateKite and ping. -/
def addKite : String := "addKite"

/-- Modelled from the spec: the removeKite broadcast action value. -/
def removeKite : String := "removeKite"

/-- Modelled from the spec: the updateKite broadcast action value. -/
def updateKite : String := "updateKite"

/-- Modelled from the spec: the registration result code meaning allow
(protocol.AllowKite). -/
def allowKite : String := "allow"

/-- Modelled from the spec: the registration result code meaning deny
(protocol.PermitKite in the source; the spec names the result code deny). -/
def permitKite : String := "deny"

/-- Modelled from the spec: a decoded coordinator broadcast
(protocol.PubResponse): action plus the identity fields of the announced
peer. -/
structure PubResponse where
  action : String
  username : String
  kitename : String
  version : String
  uuid : String
  hostname : String
  addr : String
deriving Repr, DecidableEq

/-- The local node state the coordination state machine acts on: the
identity fields used to build outgoing requests, the registered flag, and
the process-wide peer registry. -/
structure KiteState where
  username : String
  kitename : String
  version : String
  uuid : String
  publicKey : String
  hostname : String
  addr : String
  localIP : String
  publicIP : String
  port : String
  registered : Bool
  reg : Registry
deriving Repr, DecidableEq

/-- A request sent to the coordinator through the Messenger. -/
inductive Msg where
  | pong (kitename uuid : String)
  | registerReq (username kitename version uuid publicKey hostname addr localIP publicIP port : String)
  | getKites (username kitename version uuid hostname addr remoteKite : String)
deriving Repr, DecidableEq

/-- True exactly on a registration request. -/
def isRegisterMsg : Msg → Bool
  | .registerReq _ _ _ _ _ _ _ _ _ _ => true
  | _ => false

/-- Pong (main.go): sends the pong heartbeat; a literal UPDATE response body
clears the registered flag.  The coordinator's response body is passed in as
pongResp. -/
def Pong (pongResp : String) (s : KiteState) : KiteState × List Msg :=
  (if pongResp = "UPDATE" then { s with registered := false } else s,
   [Msg.pong s.kitename s.uuid])

/-- RegisterToKontrol (main.go): sends the register request and interprets
the coordinator's response result (none models an unparsable response body):
allow succeeds, deny is the permission error, anything else is the
nonstandard-response error. -/
def RegisterToKontrol (registerResp : Option String) (s : KiteState) :
    Except String Unit × List Msg :=
  (match registerResp with
   | none => .error "unmarshal error"
   | some res =>
     if res = allowKite then .ok ()
     else if res = permitKite then .error "no permission to run"
     else .error "got a nonstandard response",
   [Msg.registerReq s.username s.kitename s.version s.uuid s.publicKey
      s.hostname s.addr s.localIP s.publicIP s.port])

/-- InitializeKite (main.go): a no-op when already registered; otherwise one
registration attempt through RegisterToKontrol, setting the registered flag
only on success (the once-guarded rpc server start is a network effect
outside this model). -/
def InitializeKite (registerResp : Option String) (s : KiteState) :
    KiteState × List Msg :=
  if s.registered then (s, [])
  else
    match RegisterToKontrol registerResp s with
    | (.error _, ms) => (s, ms)
    | (.ok _, ms) => ({ s with registered := true }, ms)

/-- AddKite (main.go): dropped entirely while unregistered; otherwise the
announced peer is inserted into the registry (the groupcache SetPeers call
is outside this model). -/
def AddKite (r : PubResponse) (s : KiteState) : KiteState :=
  if !s.registered then s
  else
    let kite : RemoteKite :=
      { username := r.username, kitename := r.kitename, version := r.version
        uuid := r.uuid, hostname := r.hostname, addr := r.addr
        token := "", client := none }
    { s with reg := s.reg.add kite }

/-- RemoveKite (main.go): dropped entirely while unregistered; otherwise the
peer with the broadcast's uuid is removed from the registry. -/
def RemoveKite (r : PubResponse) (s : KiteState) : KiteState :=
  if !s.registered then s
  else { s with reg := s.reg.remove r.uuid }

/-- handle (main.go): interprets one decoded coordinator broadcast.  The
pong heartbeat is sent first, unconditionally; then the action dispatch:
addKite / removeKite mutate the registry, updateKite clears the registered
flag, ping triggers InitializeKite, anything else is ignored.  Returns the
new state and the requests sent to the coordinator, in order. -/
def handle (pongResp : String) (registerResp : Option String) (r : PubResponse)
    (s : KiteState) : KiteState × List Msg :=
  if r.action = addKite then
    (AddKite r (Pong pongResp s).1, (Pong pongResp s).2)
  else if r.action = removeKite then
    (RemoveKite r (Pong pongResp s).1, (Pong pongResp s).2)
  else if r.action = updateKite then
    ({ (Pong pongResp s).1 with registered := false }, (Pong pongResp s).2)
  else if r.action = "ping" then
    ((InitializeKite registerResp (Pong pongResp s).1).1,
     (Pong pongResp s).2 ++ (InitializeKite registerResp (Pong pongResp s).1).2)
  else ((Pong pongResp s).1, (Pong pongResp s).2)

/-! ## Concrete inputs used by witnesses and counterexamples -/

/-- A concrete peer of group x/y with no cached connection. -/
def peerA : RemoteKite :=
  { username := "x", kitename := "x/y", version := "1", uuid := "uA"
    hostname := "hA", addr := "10.0.0.1:7777", token := "", client := none }

/-- A second concrete peer of group x/y. -/
def peerB : RemoteKite :=
  { username := "x", kitename := "x/y", version := "1", uuid := "uB"
    hostname := "hB", addr := "10.0.0.2:7777", token := "", client := none }

/-- A concrete peer of a different group. -/
def peerZ : RemoteKite :=
  { username := "z", kitename := "z/other", version := "1", uuid := "uZ"
    hostname := "hZ", addr := "10.0.0.9:7777", token := "", client := none }

/-- A concrete registered node state. -/
def nodeS : KiteState :=
  { username := "me", kitename := "me/svc", version := "1", uuid := "u0"
    publicKey := "pk", hostname := "h0", addr := "10.0.0.5:6666"
    localIP := "10.0.0.5", publicIP := "1.2.3.4", port := "6666"
    registered := true, reg := [] }

/-- The same concrete node state, not yet registered. -/
def nodeU : KiteState :=
  { nodeS with registered := false }

/-- A concrete updateKite broadcast. -/
def respUpdate : PubResponse :=
  { action := updateKite, username := "k", kitename := "kontrol", version := "1"
    uuid := "uK", hostname := "hK", addr := "10.0.0.8:4000" }

/-- A concrete addKite broadcast announcing peerA. -/
def respAdd : PubResponse :=
  { action := addKite, username := "x", kitename := "x/y", version := "1"
    uuid := "uA", hostname := "hA", addr := "10.0.0.1:7777" }

/-- A concrete ping broadcast. -/
def respPing : PubResponse :=
  { action := "ping", username := "k", kitename := "kontrol", version := "1"
    uuid := "uK", hostname := "hK", addr := "10.0.0.8:4000" }

/-- A concrete broadcast with an unrecognized action. -/
def respBogus : PubResponse :=
  { action := "frobnicate", username := "k", kitename := "kontrol", version := "1"
    uuid := "uK", hostname := "hK", addr := "10.0.0.8:4000" }

/-! ## Lemmas about the balancer and round-robin resolution -/

/-- Reading a group's index right after storing one returns the stored
index. -/
theorem getIndex_addOrUpdateIndex (bal : Balancer) (kite : String) (n : Nat) :
    Balancer.getIndex (Balancer.addOrUpdateIndex bal kite n) kite = n := by
  simp [Balancer.getIndex, Balancer.addOrUpdateIndex, List.find?]

/-- When the group has at least one member the registry is non-empty, so
RemoteKites takes its normal path and returns exactly the matching list. -/
theorem RemoteKites_matching (reg : Registry) (kite : String)
    (h : 0 < (matching reg kite).length) :
    RemoteKites reg kite = .ok (matching reg kite) := by
  match reg with
  | [] => simp [matching, Registry.list] at h
  | a :: l => simp [RemoteKites, matching, Registry.list]

/-- Normal form of roundRobin on a non-empty group: it returns the candidate
at index (lastIndex + 1) mod n and the balancer with that index stored. -/
theorem roundRobin_eq (reg : Registry) (bal : Balancer) (kite : String)
    (h : 0 < (matching reg kite).length) :
    roundRobin reg bal kite =
      .ok ((matching reg kite).get
            ⟨(Balancer.getIndex bal kite + 1) % (matching reg kite).length, Nat.mod_lt _ h⟩,
           Balancer.addOrUpdateIndex bal kite
             ((Balancer.getIndex bal kite + 1) % (matching reg kite).length)) := by
  unfold roundRobin
  rw [RemoteKites_matching reg kite h]
  have h0 : ¬ (matching reg kite).length = 0 := Nat.pos_iff_ne_zero.mp h
  simp [h0]

/-- Closed form of the selected-index sequence: starting from stored index
i, the k consecutive resolutions select (i + 1) mod n, (i + 2) mod n, .... -/
theorem rrIndices_closed_form (reg : Registry) (kite : String)
    (h : 0 < (matching reg kite).length) :
    ∀ (k : Nat) (bal : Balancer),
      rrIndices reg kite k bal =
        (List.range k).map
          (fun j => (Balancer.getIndex bal kite + 1 + j) % (matching reg kite).length) := by
  intro k
  induction k with
  | zero => intro bal; simp [rrIndices]
  | succ k ih =>
    intro bal
    rw [rrIndices, roundRobin_eq reg bal kite h]
    simp only [getIndex_addOrUpdateIndex, ih]
    rw [List.range_succ_eq_map]
    simp only [List.map_cons, List.map_map, Function.comp]
    have hfun :
        (fun j => ((Balancer.getIndex bal kite + 1) % (matching reg kite).length + 1 + j) %
            (matching reg kite).length) =
        (fun j => (Balancer.getIndex bal kite + 1 + Nat.succ j) %
            (matching reg kite).length) := by
      funext j
      rw [Nat.add_assoc ((Balancer.getIndex bal kite + 1) % (matching reg kite).length) 1 j,
          Nat.mod_add_mod]
      congr 1
      omega
    rw [hfun]
    congr 1

/-- Adding a constant then reducing modulo n permutes the range of n. -/
theorem map_add_mod_perm_range (a n : Nat) (h : 0 < n) :
    ((List.range n).map (fun j => (a + j) % n)).Perm (List.range n) := by
  have hnd : ((List.range n).map (fun j => (a + j) % n)).Nodup := by
    apply List.Nodup.map_on _ (List.nodup_range n)
    intro x hx y hy hxy
    have hx' : x < n := List.mem_range.mp hx
    have hy' : y < n := List.mem_range.mp hy
    have h2 : x % n = y % n := Nat.ModEq.add_left_cancel' a hxy
    rw [Nat.mod_eq_of_lt hx', Nat.mod_eq_of_lt hy'] at h2
    exact h2
  apply List.perm_of_nodup_nodup_toFinset_eq hnd (List.nodup_range n)
  apply Finset.eq_of_subset_of_card_le
  · intro m hm
    simp only [List.mem_toFinset, List.mem_map, List.mem_range] at hm ⊢
    obtain ⟨j, hj, rfl⟩ := hm
    exact Nat.mod_lt _ h
  · rw [List.toFinset_card_of_nodup (List.nodup_range n),
        List.toFinset_card_of_nodup hnd, List.length_range, List.length_map,
        List.length_range]

/-! ## Claims C2 and C3 -/

/-- Claim C2: for a group with n registered peers (n greater than 0) and no
contention, each resolution selects index (lastIndex + 1) mod n where
lastIndex is the balancer's stored index for the group (0 if unseen), stores
that index back, and n consecutive resolutions visit each of the n peers
exactly once before repeating (the selected-index sequence is a permutation
of the n candidate indices). -/
theorem roundRobin_cycle (reg : Registry) (bal : Balancer) (kite : String)
    (h : 0 < (matching reg kite).length) :
    roundRobin reg bal kite =
      .ok ((matching reg kite).get
            ⟨(Balancer.getIndex bal kite + 1) % (matching reg kite).length, Nat.mod_lt _ h⟩,
           Balancer.addOrUpdateIndex bal kite
             ((Balancer.getIndex bal kite + 1) % (matching reg kite).length)) ∧
    Balancer.getIndex (Balancer.addOrUpdateIndex bal kite
        ((Balancer.getIndex bal kite + 1) % (matching reg kite).length)) kite =
      (Balancer.getIndex bal kite + 1) % (matching reg kite).length ∧
    (rrIndices reg kite (matching reg kite).length bal).Perm
      (List.range (matching reg kite).length) := by
  refine ⟨roundRobin_eq reg bal kite h, getIndex_addOrUpdateIndex bal kite _, ?_⟩
  rw [rrIndices_closed_form reg kite h]
  exact map_add_mod_perm_range (Balancer.getIndex bal kite + 1)
    (matching reg kite).length h

/-- Witness for claim C2 at a two-peer group with an unseen balancer. -/
theorem roundRobin_cycle_witness :
    0 < (matching [peerA, peerB] "x/y").length ∧
    (roundRobin [peerA, peerB] [] "x/y" =
      .ok ((matching [peerA, peerB] "x/y").get
            ⟨(Balancer.getIndex [] "x/y" + 1) % (matching [peerA, peerB] "x/y").length,
             by decide⟩,
           Balancer.addOrUpdateIndex [] "x/y"
             ((Balancer.getIndex [] "x/y" + 1) % (matching [peerA, peerB] "x/y").length)) ∧
    Balancer.getIndex (Balancer.addOrUpdateIndex [] "x/y"
        ((Balancer.getIndex [] "x/y" + 1) % (matching [peerA, peerB] "x/y").length)) "x/y" =
      (Balancer.getIndex [] "x/y" + 1) % (matching [peerA, peerB] "x/y").length ∧
    (rrIndices [peerA, peerB] "x/y" (matching [peerA, peerB] "x/y").length []).Perm
      (List.range (matching [peerA, peerB] "x/y").length)) :=
  ⟨by decide, roundRobin_cycle [peerA, peerB] [] "x/y" (by decide)⟩

/-- Claim C3: for every stored balancer index (stale ones from a larger
group included, since the balancer is arbitrary here) and every current
group size m greater than 0, the next resolution computes its index modulo
m, so it is in bounds and roundRobin succeeds. -/
theorem roundRobin_index_in_bounds (reg : Registry) (bal : Balancer) (kite : String)
    (h : 0 < (matching reg kite).length) :
    (Balancer.getIndex bal kite + 1) % (matching reg kite).length <
      (matching reg kite).length ∧
    ∃ r, roundRobin reg bal kite =
      .ok (r, Balancer.addOrUpdateIndex bal kite
              ((Balancer.getIndex bal kite + 1) % (matching reg kite).length)) :=
  ⟨Nat.mod_lt _ h, ⟨_, roundRobin_eq reg bal kite h⟩⟩

/-- Witness for claim C3: a stale stored index 7 against a group that now
has a single member. -/
theorem roundRobin_index_in_bounds_witness :
    0 < (matching [peerA] "x/y").length ∧
    ((Balancer.getIndex [("x/y", 7)] "x/y" + 1) % (matching [peerA] "x/y").length <
      (matching [peerA] "x/y").length ∧
    ∃ r, roundRobin [peerA] [("x/y", 7)] "x/y" =
      .ok (r, Balancer.addOrUpdateIndex [("x/y", 7)] "x/y"
              ((Balancer.getIndex [("x/y", 7)] "x/y" + 1) %
                (matching [peerA] "x/y").length))) :=
  ⟨by decide, roundRobin_index_in_bounds [peerA] [("x/y", 7)] "x/y" (by decide)⟩

/-! ## Claim C1 -/

/-- Claim C1: the claim promises that CallSync with no member of the
requested group always returns a non-nil error naming the group with the
registry unchanged.  The error path does behave that way, but only when the
registry holds at least one (non-matching) peer: with a completely empty
registry, RemoteKites allocates its result with capacity len(list) - 1 = -1
and Go raises a runtime panic (makeslice: cap out of range), so CallSync
panics instead of returning.  First conjunct: the panic on the empty
registry; second: the documented error, naming the group, with the registry
and balancer unchanged, on a non-empty registry without members of the
group. -/
theorem callSync_no_peer :
    CallSync [] [] "owner/math" "square"
        (fun _ => .error "nodial") (fun _ _ => .ok ()) =
      (.error (.crash "makeslice: cap out of range"), [], []) ∧
    CallSync [peerZ] [] "owner/math" "square"
        (fun _ => .error "nodial") (fun _ _ => .ok ()) =
      (.error (.err ("kite " ++ "owner/math" ++ " does not exist")), [peerZ], []) :=
  ⟨rfl, rfl⟩

/-! ## Claim C5 -/

/-- Claim C5 counterexample: the select at the end of Call fires the
callback exactly once, but on the timeout branch (no remote response within
the 10-second tick, modelled by the input none) the value passed for the
error is the rpc call's still-nil error field, not a non-nil timeout error:
the single callback invocation carries no error, refuting the claimed
non-nil-error pairing. -/
theorem callSelect_timeout_nil_error :
    (callSelect none).length = 1 ∧
    ((callSelect none).all (fun p => p.1.isSome)) = false :=
  ⟨rfl, rfl⟩

/-- Claim C5 (amended): the callback fires exactly once; when the response
arrives before the tick it receives the completed call's error and result,
and when it does not, the callback receives a nil error and the zero-value
result (the rpc call's error field is not yet set at the timeout). -/
theorem callSelect_exactly_once (resp : Option CallResponse) (r : CallResponse) :
    (callSelect resp).length = 1 ∧
    callSelect none = [(none, "")] ∧
    callSelect (some r) = [(r.respErr, r.result)] := by
  refine ⟨?_, rfl, rfl⟩
  cases resp <;> rfl

/-! ## Claim C6 -/

/-- Claim C6: a TCP failure returns the raw dial error with no connection
opened; after a successful connect, a malformed or absent response or a
status line other than the exact connected string yields a nil client and a
non-nil error and the connection is closed; the exact status line yields the
codec-wrapped client and a nil error; and success (client present, nil
error) holds if and only if the connect succeeded and the decoded status is
exactly the connected string.  No case retries inside dialClient (it is a
single straight-line function of its two network outcomes). -/
theorem dialClient_handshake (r : Except String HTTPResponse)
    (tcp : Except String Nat) (e : String) (resp : HTTPResponse) (c : Nat)
    (hs : resp.status ≠ connected) :
    dialClient (.error e) r =
      { client := none, errMsg := some e, connOpened := false, connClosed := false } ∧
    dialClient (.ok c) (.error e) =
      { client := none, errMsg := some ("dial-http tcp: " ++ e)
        connOpened := true, connClosed := true } ∧
    dialClient (.ok c) (.ok resp) =
      { client := none
        errMsg := some ("dial-http tcp: unexpected HTTP response: " ++ resp.status)
        connOpened := true, connClosed := true } ∧
    dialClient (.ok c) (.ok { status := connected }) =
      { client := some c, errMsg := none, connOpened := true, connClosed := false } ∧
    (((dialClient tcp r).client.isSome ∧ (dialClient tcp r).errMsg = none) ↔
      (∃ c2, tcp = .ok c2) ∧ ∃ r2, r = .ok r2 ∧ r2.status = connected) ∧
    ((dialClient tcp r).errMsg.isSome → (dialClient tcp r).connOpened = true →
      (dialClient tcp r).connClosed = true) := by
  refine ⟨rfl, rfl, by simp [dialClient, hs], by simp [dialClient], ?_, ?_⟩
  · cases tcp with
    | error e2 => simp [dialClient]
    | ok c2 =>
      cases r with
      | error e2 => simp [dialClient]
      | ok r2 =>
        by_cases hst : r2.status = connected
        · simp [dialClient, hst]
        · simp [dialClient, hst]
  · cases tcp with
    | error e2 => intro _ hop; simp [dialClient] at hop
    | ok c2 =>
      cases r with
      | error e2 => intro _ _; rfl
      | ok r2 =>
        by_cases hst : r2.status = connected
        · simp [dialClient, hst]
        · simp [dialClient, hst]

/-- Witness for claim C6 at concrete network outcomes: connect succeeded,
the decoded status is the wrong string for the branch hypotheses, and the
quantified conjuncts are instantiated at a successful handshake. -/
theorem dialClient_handshake_witness :
    HTTPResponse.status { status := "404 Not Found" } ≠ connected ∧
    (dialClient (.error "refused") (.ok { status := connected }) =
      { client := none, errMsg := some "refused", connOpened := false, connClosed := false } ∧
    dialClient (.ok 3) (.error "refused") =
      { client := none, errMsg := some ("dial-http tcp: " ++ "refused")
        connOpened := true, connClosed := true } ∧
    dialClient (.ok 3) (.ok { status := "404 Not Found" }) =
      { client := none
        errMsg := some ("dial-http tcp: unexpected HTTP response: " ++
          HTTPResponse.status { status := "404 Not Found" })
        connOpened := true, connClosed := true } ∧
    dialClient (.ok 3) (.ok { status := connected }) =
      { client := some 3, errMsg := none, connOpened := true, connClosed := false } ∧
    (((dialClient (.ok 3) (.ok { status := connected })).client.isSome ∧
        (dialClient (.ok 3) (.ok { status := connected })).errMsg = none) ↔
      (∃ c2, (.ok 3 : Except String Nat) = .ok c2) ∧
      ∃ r2, (.ok { status := connected } : Except String HTTPResponse) = .ok r2 ∧
        r2.status = connected) ∧
    ((dialClient (.ok 3) (.ok { status := connected })).errMsg.isSome →
      (dialClient (.ok 3) (.ok { status := connected })).connOpened = true →
      (dialClient (.ok 3) (.ok { status := connected })).connClosed = true)) :=
  ⟨by decide,
   dialClient_handshake (.ok { status := connected }) (.ok 3) "refused"
     { status := "404 Not Found" } 3 (by decide)⟩

/-! ## Claim C7 -/

/-- Claim C7: when the candidate selected by roundRobin has no cached
connection, getRemoteKite dials it; on dial failure the dial error becomes
the resolution's error and the registry is unchanged; on dial success the
candidate now carrying the connection is re-inserted into the registry. -/
theorem getRemoteKite_dials_and_reinserts (reg : Registry) (bal bal' : Balancer)
    (kite : String) (dial : RemoteKite → Except String Nat) (r : RemoteKite)
    (e : String) (c : Nat)
    (hrr : roundRobin reg bal kite = .ok (r, bal')) (hc : r.client = none) :
    (dial r = .error e →
      getRemoteKite reg bal kite dial = (.error (.err e), reg, bal')) ∧
    (dial r = .ok c →
      getRemoteKite reg bal kite dial =
        (.ok { r with client := some c },
         Registry.add reg { r with client := some c }, bal')) := by
  constructor
  · intro hd
    simp [getRemoteKite, hrr, hc, hd]
  · intro hd
    simp [getRemoteKite, hrr, hc, hd]

/-- Witness for claim C7: a single connectionless peer; the dial oracle
succeeds with handle 7, and the refreshed record is re-inserted. -/
theorem getRemoteKite_dials_and_reinserts_witness :
    roundRobin [peerA] [] "x/y" = .ok (peerA, [("x/y", 0)]) ∧
    peerA.client = none ∧
    (((fun _ => (.ok 7 : Except String Nat)) peerA = .error "nodial" →
      getRemoteKite [peerA] [] "x/y" (fun _ => .ok 7) =
        (.error (.err "nodial"), [peerA], [("x/y", 0)])) ∧
    ((fun _ => (.ok 7 : Except String Nat)) peerA = .ok 7 →
      getRemoteKite [peerA] [] "x/y" (fun _ => .ok 7) =
        (.ok { peerA with client := some 7 },
         Registry.add [peerA] { peerA with client := some 7 }, [("x/y", 0)]))) :=
  ⟨rfl, rfl,
   getRemoteKite_dials_and_reinserts [peerA] [] [("x/y", 0)] "x/y"
     (fun _ => .ok 7) peerA "nodial" 7 rfl rfl⟩

/-! ## Lemmas about the coordination state machine -/

/-- Pong never sets the registered flag: if it was false it stays false. -/
theorem Pong_registered_false (pr : String) (s : KiteState)
    (h : s.registered = false) : (Pong pr s).1.registered = false := by
  by_cases hpr : pr = "UPDATE" <;> simp [Pong, hpr, h]

/-- Pong never touches the peer registry. -/
theorem Pong_preserves_reg (pr : String) (s : KiteState) :
    (Pong pr s).1.reg = s.reg := by
  by_cases hpr : pr = "UPDATE" <;> simp [Pong, hpr]

/-- An unregistered InitializeKite sends exactly one register request,
whatever the coordinator answers. -/
theorem InitializeKite_msgs (rr : Option String) (s : KiteState)
    (h : s.registered = false) :
    (InitializeKite rr s).2 =
      [Msg.registerReq s.username s.kitename s.version s.uuid s.publicKey
        s.hostname s.addr s.localIP s.publicIP s.port] := by
  cases rr with
  | none => simp [InitializeKite, h, RegisterToKontrol]
  | some res =>
    by_cases ha : res = allowKite
    · simp [InitializeKite, h, RegisterToKontrol, ha]
    · by_cases hd : res = permitKite
      · simp [InitializeKite, h, RegisterToKontrol, ha, hd, allowKite, permitKite]
      · simp [InitializeKite, h, RegisterToKontrol, ha, hd]

/-- InitializeKite never touches the peer registry. -/
theorem InitializeKite_preserves_reg (rr : Option String) (s : KiteState) :
    (InitializeKite rr s).1.reg = s.reg := by
  by_cases h : s.registered = true
  · simp [InitializeKite, h]
  · cases rr with
    | none => simp [InitializeKite, h, RegisterToKontrol]
    | some res =>
      by_cases ha : res = allowKite
      · simp [InitializeKite, h, RegisterToKontrol, ha]
      · by_cases hd : res = permitKite
        · simp [InitializeKite, h, RegisterToKontrol, ha, hd, allowKite, permitKite]
        · simp [InitializeKite, h, RegisterToKontrol, ha, hd]

/-- From an unregistered state, handling a broadcast sends exactly one
register request when the action is ping and none otherwise. -/
theorem handle_register_count (pr : String) (rr : Option String) (r : PubResponse)
    (s : KiteState) (hreg : s.registered = false) :
    (handle pr rr r s).2.countP isRegisterMsg = if r.action = "ping" then 1 else 0 := by
  have hp := Pong_registered_false pr s hreg
  unfold handle
  by_cases h1 : r.action = addKite
  · rw [if_pos h1]
    simp [h1, addKite, Pong, isRegisterMsg, List.countP_cons, List.countP_nil]
  rw [if_neg h1]
  by_cases h2 : r.action = removeKite
  · rw [if_pos h2]
    simp [h2, removeKite, Pong, isRegisterMsg, List.countP_cons, List.countP_nil]
  rw [if_neg h2]
  by_cases h3 : r.action = updateKite
  · rw [if_pos h3]
    simp [h3, updateKite, Pong, isRegisterMsg, List.countP_cons, List.countP_nil]
  rw [if_neg h3]
  by_cases h4 : r.action = "ping"
  · rw [if_pos h4, List.countP_append, InitializeKite_msgs rr (Pong pr s).1 hp]
    simp [h4, Pong, isRegisterMsg, List.countP_cons, List.countP_nil]
  · rw [if_neg h4]
    simp [h4, Pong, isRegisterMsg, List.countP_cons, List.countP_nil]

/-! ## Claim C4 -/

/-- Claim C4 counterexample: starting registered, an updateKite broadcast
clears the registered flag; but the next broadcast with action addKite (the
claim says any action re-triggers registration exactly once) sends no
register request at all: registration is re-triggered only by a ping
broadcast. -/
theorem handle_addKite_after_update_no_register :
    (handle "ok" (some allowKite) respUpdate nodeS).1.registered = false ∧
    ¬ (((handle "ok" (some allowKite) respAdd
          (handle "ok" (some allowKite) respUpdate nodeS).1).2.countP isRegisterMsg) = 1) ∧
    ((handle "ok" (some allowKite) respAdd
        (handle "ok" (some allowKite) respUpdate nodeS).1).2.countP isRegisterMsg) = 0 :=
  ⟨rfl, by decide, rfl⟩

/-- Claim C4 (amended): handling an updateKite broadcast clears the
registered flag in every state; after that, the next broadcast with action
ping triggers registration exactly once (exactly one register request is
sent while handling it, whatever the coordinator answers), while a
subsequent broadcast with any other action does not trigger registration at
all. -/
theorem updateKite_then_ping_reregisters (pr pr2 : String) (rr rr2 : Option String)
    (r r2 : PubResponse) (s : KiteState) (hupd : r.action = updateKite) :
    (handle pr rr r s).1.registered = false ∧
    (r2.action = "ping" →
      ((handle pr2 rr2 r2 (handle pr rr r s).1).2.countP isRegisterMsg) = 1) ∧
    (r2.action ≠ "ping" →
      ((handle pr2 rr2 r2 (handle pr rr r s).1).2.countP isRegisterMsg) = 0) := by
  have hu : (handle pr rr r s).1.registered = false := by
    have h1 : ¬ r.action = addKite := by rw [hupd]; decide
    have h2 : ¬ r.action = removeKite := by rw [hupd]; decide
    unfold handle
    rw [if_neg h1, if_neg h2, if_pos hupd]
  refine ⟨hu, ?_, ?_⟩
  · intro hping
    rw [handle_register_count pr2 rr2 r2 _ hu, if_pos hping]
  · intro hping
    rw [handle_register_count pr2 rr2 r2 _ hu, if_neg hping]

/-- Witness for claim C4: concrete updateKite then ping broadcasts against
the registered node. -/
theorem updateKite_then_ping_reregisters_witness :
    respUpdate.action = updateKite ∧
    ((handle "ok" (some allowKite) respUpdate nodeS).1.registered = false ∧
     (respPing.action = "ping" →
       ((handle "ok" (some allowKite) respPing
           (handle "ok" (some allowKite) respUpdate nodeS).1).2.countP isRegisterMsg) = 1) ∧
     (respPing.action ≠ "ping" →
       ((handle "ok" (some allowKite) respPing
           (handle "ok" (some allowKite) respUpdate nodeS).1).2.countP isRegisterMsg) = 0)) :=
  ⟨rfl, updateKite_then_ping_reregisters "ok" "ok" (some allowKite) (some allowKite)
     respUpdate respPing nodeS rfl⟩

/-! ## Claim C8 -/

/-- Claim C8: every decoded broadcast, regardless of its action value, sends
the pong heartbeat to the coordinator first (the first message sent while
handling it is the pong); and a broadcast with an unrecognized action causes
no state change and no message beyond the pong exchange itself: the handle
outcome is exactly the Pong outcome. -/
theorem handle_pongs_first (pr : String) (rr : Option String) (r : PubResponse)
    (s : KiteState) :
    (handle pr rr r s).2.head? = some (Msg.pong s.kitename s.uuid) ∧
    (r.action ≠ addKite → r.action ≠ removeKite → r.action ≠ updateKite →
      r.action ≠ "ping" → handle pr rr r s = Pong pr s) := by
  constructor
  · unfold handle
    by_cases h1 : r.action = addKite
    · rw [if_pos h1]; simp [Pong]
    rw [if_neg h1]
    by_cases h2 : r.action = removeKite
    · rw [if_pos h2]; simp [Pong]
    rw [if_neg h2]
    by_cases h3 : r.action = updateKite
    · rw [if_pos h3]; simp [Pong]
    rw [if_neg h3]
    by_cases h4 : r.action = "ping"
    · rw [if_pos h4]; simp [Pong]
    · rw [if_neg h4]; simp [Pong]
  · intro h1 h2 h3 h4
    unfold handle
    rw [if_neg h1, if_neg h2, if_neg h3, if_neg h4]

/-- Witness for claim C8: a concrete broadcast with an unrecognized action
pongs first and changes nothing else. -/
theorem handle_pongs_first_witness :
    (handle "ok" (some allowKite) respBogus nodeS).2.head? =
        some (Msg.pong nodeS.kitename nodeS.uuid) ∧
    handle "ok" (some allowKite) respBogus nodeS = Pong "ok" nodeS :=
  ⟨(handle_pongs_first "ok" (some allowKite) respBogus nodeS).1,
   (handle_pongs_first "ok" (some allowKite) respBogus nodeS).2
     (by decide) (by decide) (by decide) (by decide)⟩

/-! ## Claim C9 -/

/-- Claim C9: the coordinator's response result determines the registration
outcome: allow yields a nil error and the node proceeds as registered; deny
yields the non-nil permission error, the attempt is a local failure with no
retry (the state is returned unchanged after exactly one register request);
any other result yields the non-nil protocol error. -/
theorem registerToKontrol_results (s : KiteState) (res : String)
    (h1 : res ≠ allowKite) (h2 : res ≠ permitKite) (hreg : s.registered = false) :
    (RegisterToKontrol (some allowKite) s).1 = .ok () ∧
    (InitializeKite (some allowKite) s).1.registered = true ∧
    (RegisterToKontrol (some permitKite) s).1 = .error "no permission to run" ∧
    (InitializeKite (some permitKite) s).1 = s ∧
    (InitializeKite (some permitKite) s).2.countP isRegisterMsg = 1 ∧
    (RegisterToKontrol (some res) s).1 = .error "got a nonstandard response" := by
  refine ⟨?_, ?_, ?_, ?_, ?_, ?_⟩
  · simp [RegisterToKontrol]
  · simp [InitializeKite, RegisterToKontrol, hreg]
  · simp [RegisterToKontrol, allowKite, permitKite]
  · simp [InitializeKite, RegisterToKontrol, hreg, allowKite, permitKite]
  · simp [InitializeKite, RegisterToKontrol, hreg, allowKite, permitKite,
      isRegisterMsg, List.countP_cons, List.countP_nil]
  · simp [RegisterToKontrol, h1, h2]

/-- Witness for claim C9 at the concrete unregistered node and a
nonstandard result string. -/
theorem registerToKontrol_results_witness :
    "banana" ≠ allowKite ∧ "banana" ≠ permitKite ∧ nodeU.registered = false ∧
    ((RegisterToKontrol (some allowKite) nodeU).1 = .ok () ∧
    (InitializeKite (some allowKite) nodeU).1.registered = true ∧
    (RegisterToKontrol (some permitKite) nodeU).1 = .error "no permission to run" ∧
    (InitializeKite (some permitKite) nodeU).1 = nodeU ∧
    (InitializeKite (some permitKite) nodeU).2.countP isRegisterMsg = 1 ∧
    (RegisterToKontrol (some "banana") nodeU).1 = .error "got a nonstandard response") :=
  ⟨by decide, by decide, rfl,
   registerToKontrol_results nodeU "banana" (by decide) (by decide) rfl⟩

/-! ## Claim C10 -/

/-- Claim C10: while the node is unregistered, an addKite or removeKite
broadcast leaves the node state (hence the peer registry) completely
unchanged, and handling any broadcast leaves the peer registry unchanged, so
registry mutations from broadcasts occur only while the node is
registered. -/
theorem unregistered_registry_frozen (pr : String) (rr : Option String)
    (r : PubResponse) (s : KiteState) (hreg : s.registered = false) :
    AddKite r s = s ∧ RemoveKite r s = s ∧ (handle pr rr r s).1.reg = s.reg := by
  have hpr := Pong_preserves_reg pr s
  have hp := Pong_registered_false pr s hreg
  refine ⟨by simp [AddKite, hreg], by simp [RemoveKite, hreg], ?_⟩
  unfold handle
  by_cases h1 : r.action = addKite
  · rw [if_pos h1]; simp [AddKite, hp, hpr]
  rw [if_neg h1]
  by_cases h2 : r.action = removeKite
  · rw [if_pos h2]; simp [RemoveKite, hp, hpr]
  rw [if_neg h2]
  by_cases h3 : r.action = updateKite
  · rw [if_pos h3]; simpa using hpr
  rw [if_neg h3]
  by_cases h4 : r.action = "ping"
  · rw [if_pos h4]
    show (InitializeKite rr (Pong pr s).1).1.reg = s.reg
    rw [InitializeKite_preserves_reg rr (Pong pr s).1, hpr]
  · rw [if_neg h4]; simpa using hpr

/-- Witness for claim C10: an addKite broadcast against the concrete
unregistered node changes nothing. -/
theorem unregistered_registry_frozen_witness :
    nodeU.registered = false ∧
    (AddKite respAdd nodeU = nodeU ∧ RemoveKite respAdd nodeU = nodeU ∧
     (handle "ok" (some allowKite) respAdd nodeU).1.reg = nodeU.reg) :=
  ⟨rfl, unregistered_registry_frozen "ok" (some allowKite) respAdd nodeU rfl⟩

end Kite
